import Mathlib

/-!
Shallow embedding of the OpenThread NCP SPI frame transport
(`src/ncp/ncp_spi.cpp`, class `NcpSpi`).

Byte buffers are modelled as `List Nat`; every stored byte is reduced
mod 256 (the C++ buffers are `uint8_t[]`).  The bus driver and the
deferred-task primitive are external: the completion handler is a pure
function from the pre-state and the completed transaction's raw inputs
to a post-state, the set of deferred handlers posted, and the
transaction armed via `otPlatSpiSlavePrepareTransaction`; the driver's
return value for `OutboundFrameSend`'s prepare call is an input.
-/

namespace NcpSpi

/-- SPI_HEADER_LENGTH: the 5-byte frame header. -/
def SPI_HEADER_LENGTH : Nat := 5

/-- SPI_RESET_FLAG: bit 7 of the header flag byte, the reset-announce flag. -/
def SPI_RESET_FLAG : Nat := 0x80

/-- Reading one `uint8_t` out of a buffer: out-of-range reads give 0, stored
values are reduced mod 256. -/
def getByte (l : List Nat) (i : Nat) : Nat := l.getD i 0 % 256

/-- Writing one `uint8_t` into a buffer (no-op out of range, as `List.set`). -/
def setByte (l : List Nat) (i v : Nat) : List Nat := l.set i (v % 256)

/-- C `memset(buf, 0, n)` on a byte buffer (never called out of range). -/
def memsetZero (buf : List Nat) (n : Nat) : List Nat :=
  List.replicate (min n buf.length) 0 ++ buf.drop n

/-- C `memcpy(dst + ofs, src, src.length)` splicing `src` into `dst` at `ofs`. -/
def memcpyAt (dst : List Nat) (ofs : Nat) (src : List Nat) : List Nat :=
  dst.take ofs ++ src ++ dst.drop (ofs + src.length)

/-- Header codec: `spi_header_set_flag_byte` writes byte 0. -/
def spi_header_set_flag_byte (header : List Nat) (value : Nat) : List Nat :=
  setByte header 0 value

/-- Header codec: `spi_header_set_accept_len` writes the 16-bit accept-length
little-endian into bytes 1 and 2 (`len` is a `uint16_t` parameter). -/
def spi_header_set_accept_len (header : List Nat) (len : Nat) : List Nat :=
  setByte (setByte header 1 ((len % 65536) % 256)) 2 ((len % 65536) / 256 % 256)

/-- Header codec: `spi_header_set_data_len` writes the 16-bit data-length
little-endian into bytes 3 and 4 (`len` is a `uint16_t` parameter). -/
def spi_header_set_data_len (header : List Nat) (len : Nat) : List Nat :=
  setByte (setByte header 3 ((len % 65536) % 256)) 4 ((len % 65536) / 256 % 256)

/-- Header codec: `spi_header_get_flag_byte` reads byte 0. -/
def spi_header_get_flag_byte (header : List Nat) : Nat := getByte header 0

/-- Header codec: `spi_header_get_accept_len` reads bytes 1 and 2. -/
def spi_header_get_accept_len (header : List Nat) : Nat :=
  getByte header 1 + getByte header 2 * 256

/-- Header codec: `spi_header_get_data_len` reads bytes 3 and 4. -/
def spi_header_get_data_len (header : List Nat) : Nat :=
  getByte header 3 + getByte header 4 * 256

/-- ThreadError results used by this file (subset of `ThreadError`). -/
inductive ThreadError where
  | kThreadError_None : ThreadError
  | kThreadError_Busy : ThreadError
  | kThreadError_Failed : ThreadError
deriving DecidableEq, Repr

export ThreadError (kThreadError_None kThreadError_Busy kThreadError_Failed)

/-- State of an `NcpSpi` instance: the four fixed buffers (their list length is
the buffer's `sizeof`), the three state flags, and the send-frame write cursor
`mSendFrameIter` kept as an offset from the start of `mSendFrame`. -/
structure NcpSpiState where
  mSendFrame : List Nat
  mEmptySendFrame : List Nat
  mReceiveFrame : List Nat
  mEmptyReceiveFrame : List Nat
  mSending : Bool
  mHandlingRxFrame : Bool
  mHandlingSendDone : Bool
  mSendFrameIter : Nat
deriving DecidableEq, Repr

/-- Identity of the buffer passed as the MISO (slave-out) side of a prepared
transaction. -/
inductive MisoBufSel where
  | sendFrame : MisoBufSel
  | emptySendFrame : MisoBufSel
deriving DecidableEq, Repr

/-- Identity of the buffer passed as the MOSI (slave-in) side of a prepared
transaction. -/
inductive MosiBufSel where
  | receiveFrame : MosiBufSel
  | emptyReceiveFrame : MosiBufSel
deriving DecidableEq, Repr

/-- Arguments of a call to `otPlatSpiSlavePrepareTransaction`: which buffer
plays each role, its contents at the call (MISO side), the two lengths, and
the request-transaction-flag (`more data`) argument. -/
structure PreparedTransaction where
  misoSel : MisoBufSel
  misoBuf : List Nat
  misoBufLen : Nat
  mosiSel : MosiBufSel
  mosiBufLen : Nat
  moreData : Bool
deriving DecidableEq, Repr

/-- Model of `OutboundFrameSize`: the write cursor's distance past the 5-byte header. -/
def OutboundFrameSize (s : NcpSpiState) : Nat :=
  s.mSendFrameIter - SPI_HEADER_LENGTH

/-- Model of `OutboundFrameGetRemaining`: payload capacity minus bytes staged so far. -/
def OutboundFrameGetRemaining (s : NcpSpiState) : Nat :=
  (s.mSendFrame.length - SPI_HEADER_LENGTH) - OutboundFrameSize s

/-- Result of `NcpSpi::SpiTransactionComplete`: the new state, whether each
deferred handler was posted, and the next transaction armed before return. -/
structure CompleteResult where
  state : NcpSpiState
  postedRxFrame : Bool
  postedSendDone : Bool
  prepared : PreparedTransaction
deriving DecidableEq, Repr

/-- Local `rx_accept_len` of the completion handler: the accept-length we
advertised in the buffer this side transmitted, when headers were exchanged. -/
def rx_accept_len (aMISOBuf : List Nat) (aMISOBufLen aTransactionLength : Nat) : Nat :=
  if SPI_HEADER_LENGTH ≤ aTransactionLength ∧ SPI_HEADER_LENGTH ≤ aMISOBufLen then
    spi_header_get_accept_len aMISOBuf
  else 0

/-- Local `tx_data_len` of the completion handler: the data-length in the
buffer this side transmitted, when headers were exchanged. -/
def tx_data_len (aMISOBuf : List Nat) (aMISOBufLen aTransactionLength : Nat) : Nat :=
  if SPI_HEADER_LENGTH ≤ aTransactionLength ∧ SPI_HEADER_LENGTH ≤ aMISOBufLen then
    spi_header_get_data_len aMISOBuf
  else 0

/-- Local `rx_data_len` of the completion handler: the data-length the master
declared in the received buffer, when headers were exchanged. -/
def rx_data_len (aMOSIBuf : List Nat) (aMOSIBufLen aTransactionLength : Nat) : Nat :=
  if SPI_HEADER_LENGTH ≤ aTransactionLength ∧ SPI_HEADER_LENGTH ≤ aMOSIBufLen then
    spi_header_get_data_len aMOSIBuf
  else 0

/-- Local `tx_accept_len` of the completion handler: the accept-length the
master advertised in the received buffer, when headers were exchanged. -/
def tx_accept_len (aMOSIBuf : List Nat) (aMOSIBufLen aTransactionLength : Nat) : Nat :=
  if SPI_HEADER_LENGTH ≤ aTransactionLength ∧ SPI_HEADER_LENGTH ≤ aMOSIBufLen then
    spi_header_get_accept_len aMOSIBuf
  else 0

/-- Receive-event detection condition of `SpiTransactionComplete`. -/
def rxFrameDetected (s : NcpSpiState) (aMISOBuf : List Nat) (aMISOBufLen : Nat)
    (aMOSIBuf : List Nat) (aMOSIBufLen aTransactionLength : Nat) : Bool :=
  decide (SPI_HEADER_LENGTH ≤ aTransactionLength) && !s.mHandlingRxFrame &&
    decide (0 < rx_data_len aMOSIBuf aMOSIBufLen aTransactionLength) &&
    decide (rx_data_len aMOSIBuf aMOSIBufLen aTransactionLength ≤
      aTransactionLength - SPI_HEADER_LENGTH) &&
    decide (rx_data_len aMOSIBuf aMOSIBufLen aTransactionLength ≤
      rx_accept_len aMISOBuf aMISOBufLen aTransactionLength)

/-- Send-completion detection condition of `SpiTransactionComplete`. -/
def sendDoneDetected (s : NcpSpiState) (aMISOBuf : List Nat) (aMISOBufLen : Nat)
    (aMOSIBuf : List Nat) (aMOSIBufLen aTransactionLength : Nat) : Bool :=
  decide (SPI_HEADER_LENGTH ≤ aTransactionLength) && s.mSending &&
    !s.mHandlingSendDone &&
    decide (0 < tx_data_len aMISOBuf aMISOBufLen aTransactionLength) &&
    decide (tx_data_len aMISOBuf aMISOBufLen aTransactionLength ≤
      aTransactionLength - SPI_HEADER_LENGTH) &&
    decide (tx_data_len aMISOBuf aMISOBufLen aTransactionLength ≤
      tx_accept_len aMOSIBuf aMOSIBufLen aTransactionLength)

/-- Model of `NcpSpi::SpiTransactionComplete` on a completed transaction whose MISO
buffer held `aMISOBuf` (length argument `aMISOBufLen`), whose MOSI buffer
received `aMOSIBuf` (length argument `aMOSIBufLen`), with actual transaction
length `aTransactionLength`. -/
def SpiTransactionComplete (s : NcpSpiState) (aMISOBuf : List Nat) (aMISOBufLen : Nat)
    (aMOSIBuf : List Nat) (aMOSIBufLen : Nat) (aTransactionLength : Nat) : CompleteResult :=
  let rxDetect : Bool :=
    rxFrameDetected s aMISOBuf aMISOBufLen aMOSIBuf aMOSIBufLen aTransactionLength
  let mHandlingRxFrame1 := s.mHandlingRxFrame || rxDetect
  let sdDetect : Bool :=
    sendDoneDetected s aMISOBuf aMISOBufLen aMOSIBuf aMOSIBufLen aTransactionLength
  let mHandlingSendDone1 := s.mHandlingSendDone || sdDetect
  let clearReset : Bool := decide (1 ≤ aTransactionLength) && decide (1 ≤ aMISOBufLen)
  let mSendFrame1 :=
    if clearReset then spi_header_set_flag_byte s.mSendFrame 0 else s.mSendFrame
  let mEmptySendFrame1 :=
    if clearReset then spi_header_set_flag_byte s.mEmptySendFrame 0 else s.mEmptySendFrame
  let useSend : Bool := s.mSending && !mHandlingSendDone1
  let misoSel := if useSend then MisoBufSel.sendFrame else MisoBufSel.emptySendFrame
  let misoBufLen1 :=
    if useSend then OutboundFrameSize s + SPI_HEADER_LENGTH else SPI_HEADER_LENGTH
  let acceptLen :=
    if mHandlingRxFrame1 then 0 else s.mReceiveFrame.length - SPI_HEADER_LENGTH
  let mSendFrame2 :=
    match misoSel with
    | MisoBufSel.sendFrame => spi_header_set_accept_len mSendFrame1 acceptLen
    | MisoBufSel.emptySendFrame => mSendFrame1
  let mEmptySendFrame2 :=
    match misoSel with
    | MisoBufSel.sendFrame => mEmptySendFrame1
    | MisoBufSel.emptySendFrame => spi_header_set_accept_len mEmptySendFrame1 acceptLen
  let misoBufContents :=
    match misoSel with
    | MisoBufSel.sendFrame => mSendFrame2
    | MisoBufSel.emptySendFrame => mEmptySendFrame2
  let mosiSel :=
    if mHandlingRxFrame1 then MosiBufSel.emptyReceiveFrame else MosiBufSel.receiveFrame
  let mosiBufLen1 :=
    if mHandlingRxFrame1 then SPI_HEADER_LENGTH else s.mReceiveFrame.length
  { state :=
      { s with
        mSendFrame := mSendFrame2
        mEmptySendFrame := mEmptySendFrame2
        mHandlingRxFrame := mHandlingRxFrame1
        mHandlingSendDone := mHandlingSendDone1 }
    postedRxFrame := rxDetect
    postedSendDone := sdDetect
    prepared :=
      { misoSel := misoSel
        misoBuf := misoBufContents
        misoBufLen := misoBufLen1
        mosiSel := mosiSel
        mosiBufLen := mosiBufLen1
        moreData := useSend } }

/-- Model of `NcpSpi::OutboundFrameBegin`: Busy while `mSending`, otherwise reset the
write cursor to just past the header. -/
def OutboundFrameBegin (s : NcpSpiState) : ThreadError × NcpSpiState :=
  if s.mSending then (kThreadError_Busy, s)
  else (kThreadError_None, { s with mSendFrameIter := SPI_HEADER_LENGTH })

/-- Model of `NcpSpi::OutboundFrameFeedData`: Failed when the frame exceeds remaining
capacity, otherwise copy it at the cursor and advance the cursor. -/
def OutboundFrameFeedData (s : NcpSpiState) (frame : List Nat) : ThreadError × NcpSpiState :=
  let maxOutLength := OutboundFrameGetRemaining s
  if frame.length > maxOutLength then (kThreadError_Failed, s)
  else
    (kThreadError_None,
      { s with
        mSendFrame := memcpyAt s.mSendFrame s.mSendFrameIter frame
        mSendFrameIter := s.mSendFrameIter + frame.length })

/-- Model of `NcpSpi::OutboundFrameFeedMessage`: the message is its byte contents;
`message.GetLength()` is its length and `message.Read(0, len, dst)` copies it. -/
def OutboundFrameFeedMessage (s : NcpSpiState) (message : List Nat) : ThreadError × NcpSpiState :=
  let maxOutLength := OutboundFrameGetRemaining s
  let frameLength := message.length
  if frameLength > maxOutLength then (kThreadError_Failed, s)
  else
    (kThreadError_None,
      { s with
        mSendFrame := memcpyAt s.mSendFrame s.mSendFrameIter message
        mSendFrameIter := s.mSendFrameIter + frameLength })

/-- Result of `NcpSpi::OutboundFrameSend`: its return value, the new state and
the transaction it requested from the driver. -/
structure SendResult where
  errorCode : ThreadError
  state : NcpSpiState
  prepared : PreparedTransaction
deriving DecidableEq, Repr

/-- Model of `NcpSpi::OutboundFrameSend`: stamp data-length from the cursor, zero the
accept-length, set `mSending`, request a transaction with the send buffer;
`driverResult` is what `otPlatSpiSlavePrepareTransaction` returned, and a Busy
driver result is converted to None. -/
def OutboundFrameSend (s : NcpSpiState) (driverResult : ThreadError) : SendResult :=
  let frameLength := OutboundFrameSize s
  let sf1 := spi_header_set_data_len s.mSendFrame frameLength
  let sf2 := spi_header_set_accept_len sf1 0
  let errorCode :=
    if driverResult = kThreadError_Busy then kThreadError_None else driverResult
  { errorCode := errorCode
    state := { s with mSendFrame := sf2, mSending := true }
    prepared :=
      { misoSel := MisoBufSel.sendFrame
        misoBuf := sf2
        misoBufLen := frameLength + SPI_HEADER_LENGTH
        mosiSel := MosiBufSel.emptyReceiveFrame
        mosiBufLen := s.mEmptyReceiveFrame.length
        moreData := true } }

/-- Result of the deferred `NcpSpi::HandleSendDone`. -/
structure SendDoneResult where
  state : NcpSpiState
  notifiedSpaceAvailable : Bool
deriving DecidableEq, Repr

/-- Deferred `NcpSpi::HandleSendDone`: clear `mSending` and
`mHandlingSendDone`, then notify `HandleSpaceAvailableInTxBuffer`. -/
def HandleSendDone (s : NcpSpiState) : SendDoneResult :=
  { state := { s with mSending := false, mHandlingSendDone := false }
    notifiedSpaceAvailable := true }

/-- Result of the deferred `NcpSpi::HandleRxFrame`: the new state and the
byte range handed to `super_t::HandleReceive` (pointer just past the header,
declared data-length many bytes). -/
structure RxFrameResult where
  state : NcpSpiState
  deliveredBytes : List Nat
  deliveredLen : Nat
deriving DecidableEq, Repr

/-- Deferred `NcpSpi::HandleRxFrame`: deliver the receive buffer's payload
(the data-length from its header, starting past the header) upward, then
clear `mHandlingRxFrame`. -/
def HandleRxFrame (s : NcpSpiState) : RxFrameResult :=
  let rx_data_len := spi_header_get_data_len s.mReceiveFrame
  { state := { s with mHandlingRxFrame := false }
    deliveredBytes := (s.mReceiveFrame.drop SPI_HEADER_LENGTH).take rx_data_len
    deliveredLen := rx_data_len }

/-- Value of the C expression `sizeof(SPI_HEADER_LENGTH)` used by the
constructor's two `memset` calls: `SPI_HEADER_LENGTH` is the integer constant
5, so this is `sizeof(int)` = 4, not 5. -/
def sizeof_SPI_HEADER_LENGTH : Nat := 4

/-- Result of the `NcpSpi::NcpSpi` constructor: the initial state and the
first transaction armed (empty buffers both ways, interrupt forced). -/
structure InitResult where
  state : NcpSpiState
  prepared : PreparedTransaction
deriving DecidableEq, Repr

/-- Model of the `NcpSpi::NcpSpi` constructor. The four buffer arguments carry the
pre-construction (uninitialized) contents of the member arrays, `iter0` the
uninitialized cursor, `hrx0`/`hsd0` the uninitialized values of
`mHandlingRxFrame`/`mHandlingSendDone` (the constructor assigns none of
these three); the constructor memsets only `sizeof(SPI_HEADER_LENGTH)` = 4
bytes of each outbound header. -/
def construct (sendFrame0 emptySendFrame0 receiveFrame0 emptyReceiveFrame0 : List Nat)
    (iter0 : Nat) (hrx0 hsd0 : Bool) : InitResult :=
  let e1 := memsetZero emptySendFrame0 sizeof_SPI_HEADER_LENGTH
  let sf1 := memsetZero sendFrame0 sizeof_SPI_HEADER_LENGTH
  let sf2 := spi_header_set_flag_byte sf1 SPI_RESET_FLAG
  let e2 := spi_header_set_flag_byte e1 SPI_RESET_FLAG
  let sf3 := spi_header_set_accept_len sf2 (receiveFrame0.length - SPI_HEADER_LENGTH)
  { state :=
      { mSendFrame := sf3
        mEmptySendFrame := e2
        mReceiveFrame := receiveFrame0
        mEmptyReceiveFrame := emptyReceiveFrame0
        mSending := false
        mHandlingRxFrame := hrx0
        mHandlingSendDone := hsd0
        mSendFrameIter := iter0 }
    prepared :=
      { misoSel := MisoBufSel.emptySendFrame
        misoBuf := e2
        misoBufLen := SPI_HEADER_LENGTH
        mosiSel := MosiBufSel.emptyReceiveFrame
        mosiBufLen := SPI_HEADER_LENGTH
        moreData := true } }

/-- One completion-callback invocation of the environment, as seen from the
slave: which of the two slave-out buffers the completed transaction carried
(`armedOut = true` for `mSendFrame`), the driver's MISO length argument, the
master-written contents and length of the MOSI side, and the transaction
length. -/
structure CompletionInput where
  armedOut : Bool
  misoBufLen : Nat
  mosiBuf : List Nat
  mosiBufLen : Nat
  transLen : Nat
deriving DecidableEq, Repr

/-- Run `SpiTransactionComplete` on one environment-chosen completion, the
completed MISO buffer being one of the instance's own outbound buffers. -/
def stepComplete (t : NcpSpiState) (i : CompletionInput) : CompleteResult :=
  SpiTransactionComplete t (if i.armedOut then t.mSendFrame else t.mEmptySendFrame)
    i.misoBufLen i.mosiBuf i.mosiBufLen i.transLen

/-- Fold a list of completion-callback invocations over the state. -/
def runCompletions (t : NcpSpiState) : List CompletionInput → NcpSpiState
  | [] => t
  | i :: rest => runCompletions (stepComplete t i).state rest

/-- True when no invocation along the completion trace posts the deferred
send-done handler. -/
def noSendDonePosted (t : NcpSpiState) : List CompletionInput → Bool
  | [] => true
  | i :: rest =>
      !(stepComplete t i).postedSendDone && noSendDonePosted (stepComplete t i).state rest

/-- Stalled-send invariant: a send is outstanding, no send-completion is
pending, and both outbound buffers carry a zero data-length header. -/
def StallInv (t : NcpSpiState) : Prop :=
  t.mSending = true ∧ t.mHandlingSendDone = false ∧
    spi_header_get_data_len t.mSendFrame = 0 ∧
    spi_header_get_data_len t.mEmptySendFrame = 0

/-- Concrete demonstration state: 3-byte outbound payload capacity, 4-byte
inbound payload capacity, a 2-byte inbound frame staged in the receive
buffer, all flags clear, cursor just past the header. -/
def demoState : NcpSpiState :=
  { mSendFrame := [0, 0, 0, 0, 0, 1, 2, 3]
    mEmptySendFrame := [0, 0, 0, 0, 0]
    mReceiveFrame := [0, 0, 0, 2, 0, 10, 20, 30, 40]
    mEmptyReceiveFrame := [0, 0, 0, 0, 0]
    mSending := false
    mHandlingRxFrame := false
    mHandlingSendDone := false
    mSendFrameIter := 5 }

/-- Concrete demonstration state with a 64-byte outbound payload capacity
(the 69-byte send buffer) and nothing staged yet. -/
def demoState64 : NcpSpiState :=
  { mSendFrame := List.replicate 69 0
    mEmptySendFrame := [0, 0, 0, 0, 0]
    mReceiveFrame := List.replicate 69 0
    mEmptyReceiveFrame := [0, 0, 0, 0, 0]
    mSending := false
    mHandlingRxFrame := false
    mHandlingSendDone := false
    mSendFrameIter := 5 }

theorem length_setByte (l : List Nat) (i v : Nat) : (setByte l i v).length = l.length := by
  simp [setByte]

theorem getByte_setByte_ne (l : List Nat) (v : Nat) {i j : Nat} (h : i ≠ j) :
    getByte (setByte l i v) j = getByte l j := by
  simp [getByte, setByte, List.getD_eq_getElem?_getD, List.getElem?_set_ne h]

theorem getByte_setByte_self (l : List Nat) (v : Nat) {i : Nat} (h : i < l.length) :
    getByte (setByte l i v) i = v % 256 := by
  simp [getByte, setByte, List.getD_eq_getElem?_getD, List.getElem?_set_self, h,
    Nat.mod_mod_of_dvd _ dvd_rfl]

theorem length_set_accept (l : List Nat) (v : Nat) :
    (spi_header_set_accept_len l v).length = l.length := by
  simp [spi_header_set_accept_len, length_setByte]

theorem length_set_flag (l : List Nat) (v : Nat) :
    (spi_header_set_flag_byte l v).length = l.length := by
  simp [spi_header_set_flag_byte, length_setByte]

theorem get_accept_set_accept (l : List Nat) (v : Nat) (h : 3 ≤ l.length) :
    spi_header_get_accept_len (spi_header_set_accept_len l v) = v % 65536 := by
  have h1 : (1 : Nat) < l.length := by omega
  have h2 : (2 : Nat) < (setByte l 1 (v % 65536 % 256)).length := by
    simp [length_setByte]; omega
  simp [spi_header_get_accept_len, spi_header_set_accept_len,
    getByte_setByte_self _ _ h2, getByte_setByte_ne _ _ (by omega : (2 : Nat) ≠ 1),
    getByte_setByte_self _ _ h1]
  omega

theorem get_data_set_data (l : List Nat) (v : Nat) (h : 5 ≤ l.length) :
    spi_header_get_data_len (spi_header_set_data_len l v) = v % 65536 := by
  have h3 : (3 : Nat) < l.length := by omega
  have h4 : (4 : Nat) < (setByte l 3 (v % 65536 % 256)).length := by
    simp [length_setByte]; omega
  simp [spi_header_get_data_len, spi_header_set_data_len,
    getByte_setByte_self _ _ h4, getByte_setByte_ne _ _ (by omega : (4 : Nat) ≠ 3),
    getByte_setByte_self _ _ h3]
  omega

theorem get_data_set_accept (l : List Nat) (v : Nat) :
    spi_header_get_data_len (spi_header_set_accept_len l v) = spi_header_get_data_len l := by
  simp [spi_header_get_data_len, spi_header_set_accept_len,
    getByte_setByte_ne _ _ (by omega : (2 : Nat) ≠ 3),
    getByte_setByte_ne _ _ (by omega : (2 : Nat) ≠ 4),
    getByte_setByte_ne _ _ (by omega : (1 : Nat) ≠ 3),
    getByte_setByte_ne _ _ (by omega : (1 : Nat) ≠ 4)]

theorem get_data_set_flag (l : List Nat) (v : Nat) :
    spi_header_get_data_len (spi_header_set_flag_byte l v) = spi_header_get_data_len l := by
  simp [spi_header_get_data_len, spi_header_set_flag_byte,
    getByte_setByte_ne _ _ (by omega : (0 : Nat) ≠ 3),
    getByte_setByte_ne _ _ (by omega : (0 : Nat) ≠ 4)]

theorem get_accept_set_data (l : List Nat) (v : Nat) :
    spi_header_get_accept_len (spi_header_set_data_len l v) = spi_header_get_accept_len l := by
  simp [spi_header_get_accept_len, spi_header_set_data_len,
    getByte_setByte_ne _ _ (by omega : (4 : Nat) ≠ 1),
    getByte_setByte_ne _ _ (by omega : (4 : Nat) ≠ 2),
    getByte_setByte_ne _ _ (by omega : (3 : Nat) ≠ 1),
    getByte_setByte_ne _ _ (by omega : (3 : Nat) ≠ 2)]

theorem get_flag_set_accept (l : List Nat) (v : Nat) :
    spi_header_get_flag_byte (spi_header_set_accept_len l v) = spi_header_get_flag_byte l := by
  simp [spi_header_get_flag_byte, spi_header_set_accept_len,
    getByte_setByte_ne _ _ (by omega : (2 : Nat) ≠ 0),
    getByte_setByte_ne _ _ (by omega : (1 : Nat) ≠ 0)]

theorem get_flag_set_flag (l : List Nat) (v : Nat) (h : 1 ≤ l.length) :
    spi_header_get_flag_byte (spi_header_set_flag_byte l v) = v % 256 := by
  simp [spi_header_get_flag_byte, spi_header_set_flag_byte,
    getByte_setByte_self _ _ (by omega : (0 : Nat) < l.length)]

theorem length_set_data (l : List Nat) (v : Nat) :
    (spi_header_set_data_len l v).length = l.length := by
  simp [spi_header_set_data_len, length_setByte]

/-- C9: `OutboundFrameBegin` returns Busy iff `mSending` is true, and on Busy
leaves the state, in particular the write cursor, unchanged; otherwise it
returns None and resets the write cursor to just past the 5-byte header of
the send buffer. -/
theorem outboundFrameBegin_spec (s : NcpSpiState) :
    ((OutboundFrameBegin s).1 = kThreadError_Busy ↔ s.mSending = true) ∧
    (s.mSending = true → (OutboundFrameBegin s).2 = s) ∧
    (s.mSending = false →
      (OutboundFrameBegin s).1 = kThreadError_None ∧
      (OutboundFrameBegin s).2 = { s with mSendFrameIter := SPI_HEADER_LENGTH }) := by
  cases h : s.mSending <;> simp [OutboundFrameBegin, h]

/-- C8: `OutboundFrameFeedData` and `OutboundFrameFeedMessage` return Failed
iff the requested length exceeds the remaining payload capacity; on Failed
the state (send buffer and cursor) is unchanged, on None exactly the
requested bytes are copied at the cursor and the cursor advances by that
length; and in the 64-payload-byte demo buffer a 100-byte feed fails, while
feeding 30 then 40 bytes fails the second call with the first call's 30
bytes still staged. -/
theorem outboundFrameFeed_spec (s : NcpSpiState) (frame message : List Nat) :
    ((OutboundFrameFeedData s frame).1 = kThreadError_Failed ↔
      OutboundFrameGetRemaining s < frame.length) ∧
    ((OutboundFrameFeedData s frame).1 = kThreadError_Failed →
      (OutboundFrameFeedData s frame).2 = s) ∧
    ((OutboundFrameFeedData s frame).1 = kThreadError_None ↔
      frame.length ≤ OutboundFrameGetRemaining s) ∧
    ((OutboundFrameFeedData s frame).1 = kThreadError_None →
      (OutboundFrameFeedData s frame).2.mSendFrame =
        s.mSendFrame.take s.mSendFrameIter ++ frame ++
          s.mSendFrame.drop (s.mSendFrameIter + frame.length) ∧
      (OutboundFrameFeedData s frame).2.mSendFrameIter =
        s.mSendFrameIter + frame.length) ∧
    ((OutboundFrameFeedMessage s message).1 = kThreadError_Failed ↔
      OutboundFrameGetRemaining s < message.length) ∧
    ((OutboundFrameFeedMessage s message).1 = kThreadError_Failed →
      (OutboundFrameFeedMessage s message).2 = s) ∧
    ((OutboundFrameFeedMessage s message).1 = kThreadError_None ↔
      message.length ≤ OutboundFrameGetRemaining s) ∧
    ((OutboundFrameFeedMessage s message).1 = kThreadError_None →
      (OutboundFrameFeedMessage s message).2.mSendFrame =
        s.mSendFrame.take s.mSendFrameIter ++ message ++
          s.mSendFrame.drop (s.mSendFrameIter + message.length) ∧
      (OutboundFrameFeedMessage s message).2.mSendFrameIter =
        s.mSendFrameIter + message.length) ∧
    (OutboundFrameFeedData demoState64 (List.replicate 100 7)).1 = kThreadError_Failed ∧
    (OutboundFrameFeedData demoState64 (List.replicate 30 7)).1 = kThreadError_None ∧
    (OutboundFrameFeedData
        (OutboundFrameFeedData demoState64 (List.replicate 30 7)).2
        (List.replicate 40 9)).1 = kThreadError_Failed ∧
    (OutboundFrameFeedData
        (OutboundFrameFeedData demoState64 (List.replicate 30 7)).2
        (List.replicate 40 9)).2 =
      (OutboundFrameFeedData demoState64 (List.replicate 30 7)).2 ∧
    (((OutboundFrameFeedData demoState64 (List.replicate 30 7)).2.mSendFrame.drop 5).take 30 =
      List.replicate 30 7) := by
  refine ⟨?_, ?_, ?_, ?_, ?_, ?_, ?_, ?_, by decide, by decide, by decide, by decide, by decide⟩
  all_goals
    first
    | (by_cases h : OutboundFrameGetRemaining s < frame.length <;>
        simp [OutboundFrameFeedData, memcpyAt, h] <;> omega)
    | (by_cases h : OutboundFrameGetRemaining s < message.length <;>
        simp [OutboundFrameFeedMessage, memcpyAt, h] <;> omega)

/-- C7: `OutboundFrameSend` computes the payload length as the write cursor's
distance past the header, stamps it into the send header's data-length,
zeroes the header's accept-length, sets `mSending`, and requests a
transaction carrying the send buffer (payload length plus header bytes) with
the empty receive buffer inbound and the more-data flag set, converting a
Busy driver result into a None return value. -/
theorem outboundFrameSend_spec (s : NcpSpiState) (driverResult : ThreadError)
    (hlen : SPI_HEADER_LENGTH ≤ s.mSendFrame.length)
    (hsz : OutboundFrameSize s < 65536) :
    OutboundFrameSize s = s.mSendFrameIter - SPI_HEADER_LENGTH ∧
    spi_header_get_data_len (OutboundFrameSend s driverResult).state.mSendFrame =
      OutboundFrameSize s ∧
    spi_header_get_accept_len (OutboundFrameSend s driverResult).state.mSendFrame = 0 ∧
    (OutboundFrameSend s driverResult).state.mSending = true ∧
    (OutboundFrameSend s driverResult).prepared.misoSel = MisoBufSel.sendFrame ∧
    (OutboundFrameSend s driverResult).prepared.misoBuf =
      (OutboundFrameSend s driverResult).state.mSendFrame ∧
    (OutboundFrameSend s driverResult).prepared.misoBufLen =
      OutboundFrameSize s + SPI_HEADER_LENGTH ∧
    (OutboundFrameSend s driverResult).prepared.mosiSel = MosiBufSel.emptyReceiveFrame ∧
    (OutboundFrameSend s driverResult).prepared.mosiBufLen = s.mEmptyReceiveFrame.length ∧
    (OutboundFrameSend s driverResult).prepared.moreData = true ∧
    (OutboundFrameSend s driverResult).errorCode =
      (if driverResult = kThreadError_Busy then kThreadError_None else driverResult) := by
  have hl2 : 3 ≤ (spi_header_set_data_len s.mSendFrame (OutboundFrameSize s)).length := by
    have h5 : SPI_HEADER_LENGTH = 5 := rfl
    rw [length_set_data]; omega
  refine ⟨rfl, ?_, ?_, rfl, rfl, rfl, rfl, rfl, rfl, rfl, rfl⟩
  · simp [OutboundFrameSend, get_data_set_accept, get_data_set_data _ _ hlen,
      Nat.mod_eq_of_lt hsz]
  · simp [OutboundFrameSend, get_accept_set_accept _ _ hl2]

/-- Witness for `outboundFrameSend_spec` at the demo state with a busy driver. -/
theorem outboundFrameSend_spec_witness :
    (SPI_HEADER_LENGTH ≤ demoState.mSendFrame.length ∧ OutboundFrameSize demoState < 65536) ∧
    (OutboundFrameSize demoState = demoState.mSendFrameIter - SPI_HEADER_LENGTH ∧
    spi_header_get_data_len (OutboundFrameSend demoState kThreadError_Busy).state.mSendFrame =
      OutboundFrameSize demoState ∧
    spi_header_get_accept_len (OutboundFrameSend demoState kThreadError_Busy).state.mSendFrame = 0 ∧
    (OutboundFrameSend demoState kThreadError_Busy).state.mSending = true ∧
    (OutboundFrameSend demoState kThreadError_Busy).prepared.misoSel = MisoBufSel.sendFrame ∧
    (OutboundFrameSend demoState kThreadError_Busy).prepared.misoBuf =
      (OutboundFrameSend demoState kThreadError_Busy).state.mSendFrame ∧
    (OutboundFrameSend demoState kThreadError_Busy).prepared.misoBufLen =
      OutboundFrameSize demoState + SPI_HEADER_LENGTH ∧
    (OutboundFrameSend demoState kThreadError_Busy).prepared.mosiSel =
      MosiBufSel.emptyReceiveFrame ∧
    (OutboundFrameSend demoState kThreadError_Busy).prepared.mosiBufLen =
      demoState.mEmptyReceiveFrame.length ∧
    (OutboundFrameSend demoState kThreadError_Busy).prepared.moreData = true ∧
    (OutboundFrameSend demoState kThreadError_Busy).errorCode =
      (if kThreadError_Busy = kThreadError_Busy then kThreadError_None
       else kThreadError_Busy)) :=
  ⟨by decide, outboundFrameSend_spec demoState kThreadError_Busy (by decide) (by decide)⟩

/-- Concrete headers for witnesses: advertise accept-length 4, and declare
data-length 2, respectively. -/
def hdrAccept4 : List Nat := [0, 4, 0, 0, 0]

/-- Concrete header declaring data-length 2 and accept-length 0. -/
def hdrData2 : List Nat := [0, 0, 0, 2, 0]

/-- Demo state with a send outstanding. -/
def demoStateSending : NcpSpiState := { demoState with mSending := true }

/-- C1: on every completion-handler invocation with header bytes available on
both sides, a receive event is detected — `mHandlingRxFrame` set and the
deferred receive handler posted — iff no receive is already pending, the
received data-length is positive, at most the transaction length minus the
5-byte header, and at most the accept-length this side advertised in the
buffer it transmitted; and the deferred receive handler delivers exactly the
declared data-length bytes starting just past the header of the inbound
buffer. -/
theorem rxEventDetection_spec (s t : NcpSpiState) (misoBuf mosiBuf : List Nat)
    (misoBufLen mosiBufLen transLen : Nat)
    (htl : SPI_HEADER_LENGTH ≤ transLen)
    (hmiso : SPI_HEADER_LENGTH ≤ misoBufLen)
    (hmosi : SPI_HEADER_LENGTH ≤ mosiBufLen)
    (hdl : spi_header_get_data_len t.mReceiveFrame + SPI_HEADER_LENGTH ≤
      t.mReceiveFrame.length) :
    (((SpiTransactionComplete s misoBuf misoBufLen mosiBuf mosiBufLen
          transLen).postedRxFrame = true ∧
      (SpiTransactionComplete s misoBuf misoBufLen mosiBuf mosiBufLen
          transLen).state.mHandlingRxFrame = true) ↔
      (s.mHandlingRxFrame = false ∧
       0 < spi_header_get_data_len mosiBuf ∧
       spi_header_get_data_len mosiBuf ≤ transLen - SPI_HEADER_LENGTH ∧
       spi_header_get_data_len mosiBuf ≤ spi_header_get_accept_len misoBuf)) ∧
    ((SpiTransactionComplete s misoBuf misoBufLen mosiBuf mosiBufLen
        transLen).state.mHandlingRxFrame =
      (s.mHandlingRxFrame ||
        (SpiTransactionComplete s misoBuf misoBufLen mosiBuf mosiBufLen
          transLen).postedRxFrame)) ∧
    (HandleRxFrame t).deliveredLen = spi_header_get_data_len t.mReceiveFrame ∧
    (HandleRxFrame t).deliveredBytes =
      (t.mReceiveFrame.drop SPI_HEADER_LENGTH).take
        (spi_header_get_data_len t.mReceiveFrame) ∧
    (HandleRxFrame t).deliveredBytes.length = spi_header_get_data_len t.mReceiveFrame ∧
    (HandleRxFrame t).state.mHandlingRxFrame = false := by
  have h5 : SPI_HEADER_LENGTH = 5 := rfl
  have hrxd : rx_data_len mosiBuf mosiBufLen transLen = spi_header_get_data_len mosiBuf := by
    simp [rx_data_len, htl, hmosi]
  have hrxa : rx_accept_len misoBuf misoBufLen transLen =
      spi_header_get_accept_len misoBuf := by
    simp [rx_accept_len, htl, hmiso]
  refine ⟨?_, ?_, rfl, rfl, ?_, rfl⟩
  · simp only [SpiTransactionComplete, rxFrameDetected, hrxd, hrxa]
    simp [htl, Bool.and_eq_true, decide_eq_true_iff, Bool.not_eq_true']
    tauto
  · rfl
  · simp [HandleRxFrame]
    omega

/-- Witness for `rxEventDetection_spec`: the demo state receives a 2-byte
frame inside a 7-byte transaction having advertised accept-length 4. -/
theorem rxEventDetection_spec_witness :
    (SPI_HEADER_LENGTH ≤ 7 ∧ SPI_HEADER_LENGTH ≤ 5 ∧ SPI_HEADER_LENGTH ≤ 5 ∧
      spi_header_get_data_len demoState.mReceiveFrame + SPI_HEADER_LENGTH ≤
        demoState.mReceiveFrame.length) ∧
    ((((SpiTransactionComplete demoState hdrAccept4 5 hdrData2 5 7).postedRxFrame = true ∧
      (SpiTransactionComplete demoState hdrAccept4 5 hdrData2 5 7).state.mHandlingRxFrame =
        true) ↔
      (demoState.mHandlingRxFrame = false ∧
       0 < spi_header_get_data_len hdrData2 ∧
       spi_header_get_data_len hdrData2 ≤ 7 - SPI_HEADER_LENGTH ∧
       spi_header_get_data_len hdrData2 ≤ spi_header_get_accept_len hdrAccept4)) ∧
    ((SpiTransactionComplete demoState hdrAccept4 5 hdrData2 5 7).state.mHandlingRxFrame =
      (demoState.mHandlingRxFrame ||
        (SpiTransactionComplete demoState hdrAccept4 5 hdrData2 5 7).postedRxFrame)) ∧
    (HandleRxFrame demoState).deliveredLen = spi_header_get_data_len demoState.mReceiveFrame ∧
    (HandleRxFrame demoState).deliveredBytes =
      (demoState.mReceiveFrame.drop SPI_HEADER_LENGTH).take
        (spi_header_get_data_len demoState.mReceiveFrame) ∧
    (HandleRxFrame demoState).deliveredBytes.length =
      spi_header_get_data_len demoState.mReceiveFrame ∧
    (HandleRxFrame demoState).state.mHandlingRxFrame = false) :=
  ⟨by decide,
   rxEventDetection_spec demoState demoState hdrAccept4 hdrData2 5 5 7
     (by decide) (by decide) (by decide) (by decide)⟩

/-- C2: on every completion-handler invocation with header bytes available on
both sides, a send-completion event is detected — `mHandlingSendDone` set and
the deferred send-done handler posted — iff a send is outstanding, no
send-completion is already pending, the data-length in the buffer this side
transmitted is positive, at most the transaction length minus the header, and
at most the accept-length the master advertised in the received header; and a
second identical completion callback, arriving while the first send-done is
still pending-deferred, posts no second send-done. -/
theorem sendDoneDetection_spec (s : NcpSpiState) (misoBuf mosiBuf : List Nat)
    (misoBufLen mosiBufLen transLen : Nat)
    (htl : SPI_HEADER_LENGTH ≤ transLen)
    (hmiso : SPI_HEADER_LENGTH ≤ misoBufLen)
    (hmosi : SPI_HEADER_LENGTH ≤ mosiBufLen) :
    (((SpiTransactionComplete s misoBuf misoBufLen mosiBuf mosiBufLen
          transLen).postedSendDone = true ∧
      (SpiTransactionComplete s misoBuf misoBufLen mosiBuf mosiBufLen
          transLen).state.mHandlingSendDone = true) ↔
      (s.mSending = true ∧ s.mHandlingSendDone = false ∧
       0 < spi_header_get_data_len misoBuf ∧
       spi_header_get_data_len misoBuf ≤ transLen - SPI_HEADER_LENGTH ∧
       spi_header_get_data_len misoBuf ≤ spi_header_get_accept_len mosiBuf)) ∧
    ((SpiTransactionComplete s misoBuf misoBufLen mosiBuf mosiBufLen
        transLen).postedSendDone = true →
      (SpiTransactionComplete
        (SpiTransactionComplete s misoBuf misoBufLen mosiBuf mosiBufLen transLen).state
        misoBuf misoBufLen mosiBuf mosiBufLen transLen).postedSendDone = false) := by
  have htxd : tx_data_len misoBuf misoBufLen transLen = spi_header_get_data_len misoBuf := by
    simp [tx_data_len, htl, hmiso]
  have htxa : tx_accept_len mosiBuf mosiBufLen transLen =
      spi_header_get_accept_len mosiBuf := by
    simp [tx_accept_len, htl, hmosi]
  constructor
  · simp only [SpiTransactionComplete, sendDoneDetected, htxd, htxa]
    simp [htl, Bool.and_eq_true, decide_eq_true_iff, Bool.not_eq_true']
    tauto
  · intro hp
    have hsd1 : (SpiTransactionComplete s misoBuf misoBufLen mosiBuf mosiBufLen
        transLen).state.mHandlingSendDone = true := by
      simp only [SpiTransactionComplete] at hp ⊢
      simp [hp]
    show sendDoneDetected
        (SpiTransactionComplete s misoBuf misoBufLen mosiBuf mosiBufLen transLen).state
        misoBuf misoBufLen mosiBuf mosiBufLen transLen = false
    simp [sendDoneDetected, hsd1]

/-- Witness for `sendDoneDetection_spec`: the sending demo state sees its
2-byte transmission accepted (master advertised accept-length 4) in a 7-byte
transaction; the repeated identical callback posts nothing new. -/
theorem sendDoneDetection_spec_witness :
    (SPI_HEADER_LENGTH ≤ 7 ∧ SPI_HEADER_LENGTH ≤ 5 ∧ SPI_HEADER_LENGTH ≤ 5) ∧
    ((((SpiTransactionComplete demoStateSending hdrData2 5 hdrAccept4 5
          7).postedSendDone = true ∧
      (SpiTransactionComplete demoStateSending hdrData2 5 hdrAccept4 5
          7).state.mHandlingSendDone = true) ↔
      (demoStateSending.mSending = true ∧ demoStateSending.mHandlingSendDone = false ∧
       0 < spi_header_get_data_len hdrData2 ∧
       spi_header_get_data_len hdrData2 ≤ 7 - SPI_HEADER_LENGTH ∧
       spi_header_get_data_len hdrData2 ≤ spi_header_get_accept_len hdrAccept4)) ∧
    ((SpiTransactionComplete demoStateSending hdrData2 5 hdrAccept4 5
        7).postedSendDone = true →
      (SpiTransactionComplete
        (SpiTransactionComplete demoStateSending hdrData2 5 hdrAccept4 5 7).state
        hdrData2 5 hdrAccept4 5 7).postedSendDone = false)) :=
  ⟨by decide,
   sendDoneDetection_spec demoStateSending hdrData2 hdrAccept4 5 5 7
     (by decide) (by decide) (by decide)⟩

theorem get_accept_set_accept_after_clear (b : List Nat) (p : Prop) [Decidable p] (v : Nat)
    (hb : 3 ≤ b.length) :
    spi_header_get_accept_len
      (spi_header_set_accept_len (if p then spi_header_set_flag_byte b 0 else b) v) =
      v % 65536 := by
  by_cases hp : p
  · rw [if_pos hp, get_accept_set_accept]
    rw [length_set_flag]
    exact hb
  · rw [if_neg hp]
    exact get_accept_set_accept b v hb

/-- C3: in the transaction armed by every completion-handler invocation, if a
receive is pending-deferred the inbound role gets the header-only empty
receive buffer and the outbound header's accept-length is set to zero;
otherwise the inbound role gets the full-capacity receive buffer and the
outbound header's accept-length is set to that buffer's payload capacity
(buffer size minus the 5-byte header). -/
theorem nextTransactionInbound_spec (s : NcpSpiState) (misoBuf mosiBuf : List Nat)
    (misoBufLen mosiBufLen transLen : Nat) (r : CompleteResult)
    (hr : r = SpiTransactionComplete s misoBuf misoBufLen mosiBuf mosiBufLen transLen)
    (hsf : SPI_HEADER_LENGTH ≤ s.mSendFrame.length)
    (hesf : SPI_HEADER_LENGTH ≤ s.mEmptySendFrame.length)
    (hcap : s.mReceiveFrame.length - SPI_HEADER_LENGTH < 65536) :
    (r.state.mHandlingRxFrame = true →
      r.prepared.mosiSel = MosiBufSel.emptyReceiveFrame ∧
      r.prepared.mosiBufLen = SPI_HEADER_LENGTH ∧
      spi_header_get_accept_len r.prepared.misoBuf = 0) ∧
    (r.state.mHandlingRxFrame = false →
      r.prepared.mosiSel = MosiBufSel.receiveFrame ∧
      r.prepared.mosiBufLen = s.mReceiveFrame.length ∧
      spi_header_get_accept_len r.prepared.misoBuf =
        s.mReceiveFrame.length - SPI_HEADER_LENGTH) := by
  have h5 : SPI_HEADER_LENGTH = 5 := rfl
  have hsf3 : 3 ≤ s.mSendFrame.length := by omega
  have hesf3 : 3 ≤ s.mEmptySendFrame.length := by omega
  subst hr
  cases hrxd : rxFrameDetected s misoBuf misoBufLen mosiBuf mosiBufLen transLen <;>
  cases hsdd : sendDoneDetected s misoBuf misoBufLen mosiBuf mosiBufLen transLen <;>
  cases hhrx : s.mHandlingRxFrame <;>
  cases hsend : s.mSending <;>
  cases hhsd : s.mHandlingSendDone <;>
  simp [SpiTransactionComplete, hrxd, hsdd, hhrx, hsend, hhsd,
    get_accept_set_accept_after_clear, hsf3, hesf3, Nat.mod_eq_of_lt hcap]

/-- Witness for `nextTransactionInbound_spec`: the demo state completes a
5-byte (header-only) transaction; no receive is pending, so the armed
transaction presents the full receive buffer and advertises its 4-byte
payload capacity. -/
theorem nextTransactionInbound_spec_witness :
    ((SpiTransactionComplete demoState hdrAccept4 5 hdrData2 5 5 =
        SpiTransactionComplete demoState hdrAccept4 5 hdrData2 5 5) ∧
      SPI_HEADER_LENGTH ≤ demoState.mSendFrame.length ∧
      SPI_HEADER_LENGTH ≤ demoState.mEmptySendFrame.length ∧
      demoState.mReceiveFrame.length - SPI_HEADER_LENGTH < 65536) ∧
    (((SpiTransactionComplete demoState hdrAccept4 5 hdrData2 5 5).state.mHandlingRxFrame =
        true →
      (SpiTransactionComplete demoState hdrAccept4 5 hdrData2 5 5).prepared.mosiSel =
        MosiBufSel.emptyReceiveFrame ∧
      (SpiTransactionComplete demoState hdrAccept4 5 hdrData2 5 5).prepared.mosiBufLen =
        SPI_HEADER_LENGTH ∧
      spi_header_get_accept_len
        (SpiTransactionComplete demoState hdrAccept4 5 hdrData2 5 5).prepared.misoBuf = 0) ∧
    ((SpiTransactionComplete demoState hdrAccept4 5 hdrData2 5 5).state.mHandlingRxFrame =
        false →
      (SpiTransactionComplete demoState hdrAccept4 5 hdrData2 5 5).prepared.mosiSel =
        MosiBufSel.receiveFrame ∧
      (SpiTransactionComplete demoState hdrAccept4 5 hdrData2 5 5).prepared.mosiBufLen =
        demoState.mReceiveFrame.length ∧
      spi_header_get_accept_len
        (SpiTransactionComplete demoState hdrAccept4 5 hdrData2 5 5).prepared.misoBuf =
        demoState.mReceiveFrame.length - SPI_HEADER_LENGTH)) :=
  ⟨⟨rfl, by decide, by decide, by decide⟩,
   nextTransactionInbound_spec demoState hdrAccept4 hdrData2 5 5 5 _ rfl
     (by decide) (by decide) (by decide)⟩

/-- C4: every completion-handler invocation, whatever the completed
transaction's length, arms exactly one next transaction: its outbound role is
the send buffer, with length the assembled payload size plus the header size,
exactly when a send is outstanding and its completion is not pending-deferred,
and the header-only empty outbound buffer otherwise; and the more-data flag
passed to the driver is set in exactly that same case. -/
theorem nextTransactionOutbound_spec (s : NcpSpiState) (misoBuf mosiBuf : List Nat)
    (misoBufLen mosiBufLen transLen : Nat) :
    ((SpiTransactionComplete s misoBuf misoBufLen mosiBuf mosiBufLen
        transLen).prepared.misoSel = MisoBufSel.sendFrame ↔
      (s.mSending = true ∧
        (SpiTransactionComplete s misoBuf misoBufLen mosiBuf mosiBufLen
          transLen).state.mHandlingSendDone = false)) ∧
    ((SpiTransactionComplete s misoBuf misoBufLen mosiBuf mosiBufLen
        transLen).prepared.misoSel = MisoBufSel.sendFrame →
      (SpiTransactionComplete s misoBuf misoBufLen mosiBuf mosiBufLen
        transLen).prepared.misoBufLen = OutboundFrameSize s + SPI_HEADER_LENGTH) ∧
    ((SpiTransactionComplete s misoBuf misoBufLen mosiBuf mosiBufLen
        transLen).prepared.misoSel = MisoBufSel.emptySendFrame →
      (SpiTransactionComplete s misoBuf misoBufLen mosiBuf mosiBufLen
        transLen).prepared.misoBufLen = SPI_HEADER_LENGTH) ∧
    (SpiTransactionComplete s misoBuf misoBufLen mosiBuf mosiBufLen
      transLen).prepared.moreData =
      (s.mSending &&
        !(SpiTransactionComplete s misoBuf misoBufLen mosiBuf mosiBufLen
          transLen).state.mHandlingSendDone) := by
  cases hsdd : sendDoneDetected s misoBuf misoBufLen mosiBuf mosiBufLen transLen <;>
  cases hsend : s.mSending <;>
  cases hhsd : s.mHandlingSendDone <;>
  simp [SpiTransactionComplete, hsdd, hsend, hhsd]

/-- C6: the completion handler clears the reset-announce flag byte in both
outbound buffers iff the completed transaction's length is at least 1 and at
least 1 byte of the MISO-side buffer was valid; otherwise both flag bytes
survive unchanged. -/
theorem resetFlagClear_spec (s : NcpSpiState) (misoBuf mosiBuf : List Nat)
    (misoBufLen mosiBufLen transLen : Nat) (r : CompleteResult)
    (hr : r = SpiTransactionComplete s misoBuf misoBufLen mosiBuf mosiBufLen transLen)
    (hsf : 1 ≤ s.mSendFrame.length)
    (hesf : 1 ≤ s.mEmptySendFrame.length) :
    (1 ≤ transLen ∧ 1 ≤ misoBufLen →
      spi_header_get_flag_byte r.state.mSendFrame = 0 ∧
      spi_header_get_flag_byte r.state.mEmptySendFrame = 0) ∧
    (¬(1 ≤ transLen ∧ 1 ≤ misoBufLen) →
      spi_header_get_flag_byte r.state.mSendFrame =
        spi_header_get_flag_byte s.mSendFrame ∧
      spi_header_get_flag_byte r.state.mEmptySendFrame =
        spi_header_get_flag_byte s.mEmptySendFrame) := by
  subst hr
  cases hsdd : sendDoneDetected s misoBuf misoBufLen mosiBuf mosiBufLen transLen <;>
  cases hsend : s.mSending <;>
  cases hhsd : s.mHandlingSendDone <;>
  constructor <;>
  intro hc <;>
  simp [SpiTransactionComplete, hsdd, hsend, hhsd, hc, not_and, get_flag_set_accept,
    get_flag_set_flag _ _ hsf, get_flag_set_flag _ _ hesf]

/-- Witness for `resetFlagClear_spec`: the demo state completes a 5-byte
transaction with 5 valid MISO bytes, so both reset flags are cleared. -/
theorem resetFlagClear_spec_witness :
    ((SpiTransactionComplete demoState hdrAccept4 5 hdrData2 5 5 =
        SpiTransactionComplete demoState hdrAccept4 5 hdrData2 5 5) ∧
      1 ≤ demoState.mSendFrame.length ∧ 1 ≤ demoState.mEmptySendFrame.length) ∧
    ((1 ≤ 5 ∧ 1 ≤ 5 →
      spi_header_get_flag_byte
        (SpiTransactionComplete demoState hdrAccept4 5 hdrData2 5 5).state.mSendFrame = 0 ∧
      spi_header_get_flag_byte
        (SpiTransactionComplete demoState hdrAccept4 5 hdrData2 5 5).state.mEmptySendFrame =
        0) ∧
    (¬(1 ≤ 5 ∧ 1 ≤ 5) →
      spi_header_get_flag_byte
        (SpiTransactionComplete demoState hdrAccept4 5 hdrData2 5 5).state.mSendFrame =
        spi_header_get_flag_byte demoState.mSendFrame ∧
      spi_header_get_flag_byte
        (SpiTransactionComplete demoState hdrAccept4 5 hdrData2 5 5).state.mEmptySendFrame =
        spi_header_get_flag_byte demoState.mEmptySendFrame)) :=
  ⟨⟨rfl, by decide, by decide⟩,
   resetFlagClear_spec demoState hdrAccept4 hdrData2 5 5 5 _ rfl (by decide) (by decide)⟩

/-- C5 (code bug): after construction from buffers previously holding the
byte 171 everywhere, byte 4 of both outbound headers — the data-length high
byte — still holds 171, because the constructor's memsets cover only
`sizeof(SPI_HEADER_LENGTH)` = 4 bytes, not the 5-byte header; so the
empty send buffer's wire-visible data-length is 171·256 = 43776 rather than
0. The claim's remaining initialization facts do hold: `mSending` cleared,
reset-announce flag 0x80 set in both outbound buffers, send-buffer
accept-length equal to the receive buffer's 64-byte payload capacity, and a
first header-only transaction armed in both directions with the more-data
flag forced. -/
theorem construct_memset_bug :
    (construct (List.replicate 69 171) (List.replicate 5 171) (List.replicate 69 0)
        (List.replicate 5 0) 0 false false).state.mSendFrame.getD 4 0 = 171 ∧
    (construct (List.replicate 69 171) (List.replicate 5 171) (List.replicate 69 0)
        (List.replicate 5 0) 0 false false).state.mEmptySendFrame.getD 4 0 = 171 ∧
    spi_header_get_data_len
      (construct (List.replicate 69 171) (List.replicate 5 171) (List.replicate 69 0)
        (List.replicate 5 0) 0 false false).state.mEmptySendFrame = 171 * 256 ∧
    (construct (List.replicate 69 171) (List.replicate 5 171) (List.replicate 69 0)
        (List.replicate 5 0) 0 false false).state.mSending = false ∧
    spi_header_get_flag_byte
      (construct (List.replicate 69 171) (List.replicate 5 171) (List.replicate 69 0)
        (List.replicate 5 0) 0 false false).state.mSendFrame = SPI_RESET_FLAG ∧
    spi_header_get_flag_byte
      (construct (List.replicate 69 171) (List.replicate 5 171) (List.replicate 69 0)
        (List.replicate 5 0) 0 false false).state.mEmptySendFrame = SPI_RESET_FLAG ∧
    spi_header_get_accept_len
      (construct (List.replicate 69 171) (List.replicate 5 171) (List.replicate 69 0)
        (List.replicate 5 0) 0 false false).state.mSendFrame = 64 ∧
    (construct (List.replicate 69 171) (List.replicate 5 171) (List.replicate 69 0)
        (List.replicate 5 0) 0 false false).prepared =
      { misoSel := MisoBufSel.emptySendFrame
        misoBuf := (construct (List.replicate 69 171) (List.replicate 5 171)
          (List.replicate 69 0) (List.replicate 5 0) 0 false false).state.mEmptySendFrame
        misoBufLen := SPI_HEADER_LENGTH
        mosiSel := MosiBufSel.emptyReceiveFrame
        mosiBufLen := SPI_HEADER_LENGTH
        moreData := true } := by
  decide

theorem get_data_set_accept_after_clear (b : List Nat) (p : Prop) [Decidable p] (v : Nat) :
    spi_header_get_data_len
      (spi_header_set_accept_len (if p then spi_header_set_flag_byte b 0 else b) v) =
      spi_header_get_data_len b := by
  by_cases hp : p <;> simp [hp, get_data_set_accept, get_data_set_flag]

theorem get_data_after_clear (b : List Nat) (p : Prop) [Decidable p] :
    spi_header_get_data_len (if p then spi_header_set_flag_byte b 0 else b) =
      spi_header_get_data_len b := by
  by_cases hp : p <;> simp [hp, get_data_set_flag]

theorem stallInv_step (t : NcpSpiState) (i : CompletionInput) (h : StallInv t) :
    (stepComplete t i).postedSendDone = false ∧ StallInv (stepComplete t i).state := by
  obtain ⟨hsend, hsd, hsf, hesf⟩ := h
  have hmiso_data :
      spi_header_get_data_len (if i.armedOut then t.mSendFrame else t.mEmptySendFrame) = 0 := by
    cases i.armedOut <;> simp [hsf, hesf]
  have hdet : sendDoneDetected t (if i.armedOut then t.mSendFrame else t.mEmptySendFrame)
      i.misoBufLen i.mosiBuf i.mosiBufLen i.transLen = false := by
    simp [sendDoneDetected, tx_data_len, hmiso_data]
  refine ⟨?_, ?_, ?_, ?_, ?_⟩
  · simp [stepComplete, SpiTransactionComplete, hdet]
  · simp [stepComplete, SpiTransactionComplete, hsend]
  · simp [stepComplete, SpiTransactionComplete, hdet, hsd]
  · simp [stepComplete, SpiTransactionComplete, hdet, hsend, hsd,
      get_data_set_accept_after_clear, get_data_after_clear, hsf]
  · simp [stepComplete, SpiTransactionComplete, hdet, hsend, hsd,
      get_data_set_accept_after_clear, get_data_after_clear, hesf]

theorem stallInv_run (ins : List CompletionInput) :
    ∀ t : NcpSpiState, StallInv t →
      noSendDonePosted t ins = true ∧ StallInv (runCompletions t ins) := by
  induction ins with
  | nil => exact fun t h => ⟨rfl, h⟩
  | cons i rest ih =>
      intro t h
      obtain ⟨hp, hs⟩ := stallInv_step t i h
      obtain ⟨hn, hr⟩ := ih _ hs
      exact ⟨by simp [noSendDonePosted, hp, hn], by simpa [runCompletions] using hr⟩

/-- C10: invoking `OutboundFrameSend` with zero staged payload (cursor just
past the header) transmits a zero data-length header and sets `mSending`;
thereafter no completion-callback invocation whose MISO side is one of the
instance's outbound buffers can satisfy the send-completion detection
condition, `mSending` stays true across every such completion trace, and
every later `OutboundFrameBegin` returns Busy. -/
theorem zeroLengthSend_stalls (s : NcpSpiState) (driverResult : ThreadError)
    (ins : List CompletionInput)
    (hiter : s.mSendFrameIter = SPI_HEADER_LENGTH)
    (hsd : s.mHandlingSendDone = false)
    (hlen : SPI_HEADER_LENGTH ≤ s.mSendFrame.length)
    (hempty : spi_header_get_data_len s.mEmptySendFrame = 0) :
    spi_header_get_data_len (OutboundFrameSend s driverResult).state.mSendFrame = 0 ∧
    (OutboundFrameSend s driverResult).state.mSending = true ∧
    noSendDonePosted (OutboundFrameSend s driverResult).state ins = true ∧
    (runCompletions (OutboundFrameSend s driverResult).state ins).mSending = true ∧
    (OutboundFrameBegin (runCompletions (OutboundFrameSend s driverResult).state ins)).1 =
      kThreadError_Busy := by
  have hsize : OutboundFrameSize s = 0 := by simp [OutboundFrameSize, hiter]
  have hdata0 :
      spi_header_get_data_len (OutboundFrameSend s driverResult).state.mSendFrame = 0 := by
    simp [OutboundFrameSend, get_data_set_accept, get_data_set_data _ _ hlen, hsize]
  have hinv : StallInv (OutboundFrameSend s driverResult).state := by
    refine ⟨rfl, ?_, hdata0, ?_⟩
    · simpa [OutboundFrameSend] using hsd
    · simpa [OutboundFrameSend] using hempty
  obtain ⟨hn, hrun⟩ := stallInv_run ins _ hinv
  exact ⟨hdata0, rfl, hn, hrun.1, by simp [OutboundFrameBegin, hrun.1]⟩

/-- Concrete completion trace for the stall witness: first the send buffer
completes (its data-length reads zero), then the empty send buffer does. -/
def demoCompletionTrace : List CompletionInput :=
  [⟨true, 8, [0, 4, 0, 0, 0], 5, 8⟩, ⟨false, 5, [0, 4, 0, 2, 0], 5, 7⟩]

/-- Witness for `zeroLengthSend_stalls`: the demo state sends with nothing
staged; across the two-completion demo trace no send-done is posted,
`mSending` stays true and `OutboundFrameBegin` stays Busy. -/
theorem zeroLengthSend_stalls_witness :
    (demoState.mSendFrameIter = SPI_HEADER_LENGTH ∧
      demoState.mHandlingSendDone = false ∧
      SPI_HEADER_LENGTH ≤ demoState.mSendFrame.length ∧
      spi_header_get_data_len demoState.mEmptySendFrame = 0) ∧
    (spi_header_get_data_len
        (OutboundFrameSend demoState kThreadError_None).state.mSendFrame = 0 ∧
    (OutboundFrameSend demoState kThreadError_None).state.mSending = true ∧
    noSendDonePosted (OutboundFrameSend demoState kThreadError_None).state
      demoCompletionTrace = true ∧
    (runCompletions (OutboundFrameSend demoState kThreadError_None).state
      demoCompletionTrace).mSending = true ∧
    (OutboundFrameBegin (runCompletions (OutboundFrameSend demoState kThreadError_None).state
      demoCompletionTrace)).1 = kThreadError_Busy) :=
  ⟨by decide,
   zeroLengthSend_stalls demoState kThreadError_None demoCompletionTrace
     (by decide) (by decide) (by decide) (by decide)⟩

end NcpSpi
